import Mathlib

/-!
# Verification of the Colorama plugin (`plugins/colorama.py`)

This file gives a shallow embedding, over exact rationals, of the color
arithmetic of the Colorama PyMOL plugin: the `colorsys` RGB↔HSV conversion
pair, the `LabeledSlider` integer-slider storage (with its 0.01 resolution in
HSV mode), the `Scalergb`/`Scalehsv` color-system switches, the
`color_grad`/`make_gradient` gradient engine, and the `setselection`
mono/gradient auto-detection.  Python `int()` truncation, float `% 1.0`,
Qt's value clamping, and the 4-significant-digit `%4.4g` predicate
formatting are modelled explicitly.

Modelling boundary: the source computes in IEEE doubles, this embedding in
exact rationals.  Theorems about float-sensitive quantities are therefore
stated only at concrete inputs at which double and rational evaluation
coincide (integer-valued slider/threshold values, multiplications by zero,
divisions that are exact in binary, all cross-checked against CPython), or
about quantities that do not depend on rounding at all (list lengths,
object names, early returns, crashes).
-/

/-- Python `int(x)` applied to a numeric value: truncation toward zero. -/
def pytrunc (x : ℚ) : ℤ := if 0 ≤ x then ⌊x⌋ else ⌈x⌉

/-- Python `x % 1.0` for a numeric `x` (divisor positive, result in `[0,1)`). -/
def pymod1 (x : ℚ) : ℚ := x - ⌊x⌋

/-- Qt's `qBound(lo, v, hi)`: clamp `v` into `[lo, hi]` (for `lo ≤ hi`). -/
def qBound (lo v hi : ℤ) : ℤ := max lo (min v hi)

/-- `colorsys.rgb_to_hsv` from the Python standard library, over `ℚ`. -/
def rgb_to_hsv (r g b : ℚ) : ℚ × ℚ × ℚ :=
  let maxc := max r (max g b)
  let minc := min r (min g b)
  let rangec := maxc - minc
  let v := maxc
  if minc = maxc then (0, 0, v)
  else
    let s := rangec / maxc
    let rc := (maxc - r) / rangec
    let gc := (maxc - g) / rangec
    let bc := (maxc - b) / rangec
    let h := if r = maxc then bc - gc
             else if g = maxc then 2 + rc - bc
             else 4 + gc - rc
    (pymod1 (h / 6), s, v)

/-- `colorsys.hsv_to_rgb` from the Python standard library, over `ℚ`
(`i = int(h*6.0)` truncates, then `i % 6` with Python's nonnegative `%`,
which agrees with `Int.emod` for the positive modulus `6`). -/
def hsv_to_rgb (h s v : ℚ) : ℚ × ℚ × ℚ :=
  if s = 0 then (v, v, v)
  else
    let i : ℤ := pytrunc (h * 6)
    let f : ℚ := h * 6 - (i : ℚ)
    let p := v * (1 - s)
    let q := v * (1 - s * f)
    let t := v * (1 - s * (1 - f))
    let j := i % 6
    if j = 0 then (v, t, p)
    else if j = 1 then (q, v, p)
    else if j = 2 then (p, v, t)
    else if j = 3 then (p, q, v)
    else if j = 4 then (t, p, v)
    else (v, p, q)

/-- State of one `LabeledSlider`: the underlying Qt integer slider
(`minv`, `maxv`, `val`) plus the `_is_float_mode` flag and `_resolution`. -/
structure Slider where
  minv : ℤ
  maxv : ℤ
  val : ℤ
  floatMode : Bool
  res : ℚ
deriving DecidableEq, Repr

/-- Qt `QSlider.setMinimum`: raises the maximum if needed, re-clamps the value. -/
def Slider.setMinimum (s : Slider) (m : ℤ) : Slider :=
  let mx := max s.maxv m
  { s with minv := m, maxv := mx, val := qBound m s.val mx }

/-- Qt `QSlider.setMaximum`: lowers the minimum if needed, re-clamps the value. -/
def Slider.setMaximum (s : Slider) (m : ℤ) : Slider :=
  let mn := min s.minv m
  { s with minv := mn, maxv := m, val := qBound mn s.val m }

/-- Qt `QSlider.setValue`: clamps into the current range. -/
def Slider.setValue (s : Slider) (v : ℤ) : Slider :=
  { s with val := qBound s.minv v s.maxv }

/-- `LabeledSlider.set_range(min_val, max_val, resolution)`. -/
def Slider.set_range (s : Slider) (minVal maxVal res : ℚ) : Slider :=
  if res < 1 then
    let s1 : Slider := { s with floatMode := true, res := res }
    (s1.setMinimum (pytrunc (minVal / res))).setMaximum (pytrunc (maxVal / res))
  else
    let s1 : Slider := { s with floatMode := false, res := res }
    (s1.setMinimum (pytrunc minVal)).setMaximum (pytrunc maxVal)

/-- `LabeledSlider.get_value()`. -/
def Slider.get_value (s : Slider) : ℚ :=
  if s.floatMode then (s.val : ℚ) * s.res else (s.val : ℚ)

/-- `LabeledSlider.set_value(value)`. -/
def Slider.set_value (s : Slider) (value : ℚ) : Slider :=
  if s.floatMode then s.setValue (pytrunc (value / s.res))
  else s.setValue (pytrunc value)

/-- The slider-relevant part of the `Colorama` dialog state: the three
channel sliders and the current `colorsystem`. -/
structure ColoramaSliders where
  red : Slider
  green : Slider
  blue : Slider
  colorsystem : String
deriving DecidableEq, Repr

/-- `Colorama.Scalehsv`: switch the sliders from RGB to HSV mode. -/
def Scalehsv (c : ColoramaSliders) : ColoramaSliders :=
  if c.colorsystem = "rgb" then
    let r := c.red.get_value / 255
    let g := c.green.get_value / 255
    let b := c.blue.get_value / 255
    let hsv := rgb_to_hsv r g b
    { red := (c.red.set_range 0 1 (1/100)).set_value hsv.1
      green := (c.green.set_range 0 1 (1/100)).set_value hsv.2.1
      blue := (c.blue.set_range 0 1 (1/100)).set_value hsv.2.2
      colorsystem := "hsv" }
  else c

/-- `Colorama.Scalergb`: switch the sliders from HSV back to RGB mode. -/
def Scalergb (c : ColoramaSliders) : ColoramaSliders :=
  if c.colorsystem = "hsv" then
    let h := c.red.get_value
    let s := c.green.get_value
    let v := c.blue.get_value
    let rgbcolor := hsv_to_rgb h s v
    let r := 255 * rgbcolor.1
    let g := 255 * rgbcolor.2.1
    let b := 255 * rgbcolor.2.2
    { red := (c.red.set_range 0 255 1).set_value r
      green := (c.green.set_range 0 255 1).set_value g
      blue := (c.blue.set_range 0 255 1).set_value b
      colorsystem := "rgb" }
  else c

/-- Slider state holding an integer RGB triple in RGB mode (range 0–255,
resolution 1), as after `_setup_ui`. -/
def rgbSliders (r g b : ℤ) : ColoramaSliders :=
  { red := ⟨0, 255, r, false, 1⟩
    green := ⟨0, 255, g, false, 1⟩
    blue := ⟨0, 255, b, false, 1⟩
    colorsystem := "rgb" }

/-- The RGB→HSV→RGB mode-switch round trip through the slider storage:
`Scalehsv` followed by `Scalergb`, reading off the final slider values. -/
def sliderRoundtrip (r g b : ℤ) : ℤ × ℤ × ℤ :=
  let c := Scalergb (Scalehsv (rgbSliders r g b))
  (c.red.val, c.green.val, c.blue.val)

/-- Python `str.lower()` on one character, for the ASCII range the plugin's
mode and gradient names use. -/
def pylowerChar (c : Char) : Char :=
  if c.isUpper then Char.ofNat (c.toNat + 32) else c

/-- Python `str.lower()` (ASCII). -/
def pylower (s : String) : String := ⟨s.data.map pylowerChar⟩

/-- Python `str.strip()`: drop whitespace from both ends. -/
def pystrip (s : String) : String :=
  ⟨((s.data.dropWhile Char.isWhitespace).reverse.dropWhile
      Char.isWhitespace).reverse⟩

/-- One selection predicate emitted by `color_grad` in histogram mode: the
object it addresses (the selection for bin 0, the dummy copy for later
bins), the item name, and the attribute threshold compared against (the
payload of the `"%s = %4.4g"` format string). -/
structure SelPred where
  obj : String
  item : String
  thr : ℚ
deriving DecidableEq, Repr

/-- Histogram bin width (`color_grad` line 664): `(max_b - min_b) / nbins`
with `min_b = int(minimum) - 1` and `max_b = int(maximum) + 1`. -/
def bin_width (minimum maximum nbins : ℤ) : ℚ :=
  (((maximum : ℚ) + 1) - ((minimum : ℚ) - 1)) / (nbins : ℚ)

/-- The `sel` list built by `color_grad` in `hist` mode (lines 665-667):
bin 0 addresses the selection at threshold `min_b + bin_width`; each bin
`j ∈ [1, nbins)` addresses the dummy copy at `min_b + j * bin_width`.
`thr` is the numeric value before the `"%4.4g"` formatting of lines
665-667; the text actually emitted carries only the 4-significant-digit
rounding of `thr`, modelled by `g4` below: two predicates on the same
object produce identical emitted text exactly when their `g4`-rounded
thresholds agree. -/
def histPreds (selection item : String) (minimum maximum nbins : ℤ) :
    List SelPred :=
  let min_b : ℚ := (minimum : ℚ) - 1
  let w := bin_width minimum maximum nbins
  SelPred.mk selection item (min_b + w) ::
    (List.range (nbins.toNat - 1)).map
      (fun (j : ℕ) =>
        SelPred.mk ("dummy-" ++ selection) item (min_b + ((j : ℚ) + 1) * w))

/-- Round half to even, the rounding used when formatting a float's decimal
digits (`%g`); the formatting rounds the double's exact value, which for
the integer-valued thresholds in the claims below coincides with this
rational rounding. -/
def roundHalfEven (x : ℚ) : ℤ :=
  let f : ℤ := ⌊x⌋
  let r : ℚ := x - (f : ℚ)
  if r < 1 / 2 then f
  else if 1 / 2 < r then f + 1
  else if f % 2 = 0 then f else f + 1

/-- The numeric value printed by Python's `"%4.4g" % x` for `x ≥ 1`
(4 significant digits): `x` rounded at position `10^(e-3)` where `e` is
the decimal exponent of `x`.  Two thresholds `≥ 1` on the same object
yield the same emitted predicate text exactly when their `g4` values
agree (e.g. `g4 10000 = g4 10001`, both printed `1e+04`).  Thresholds
below 1 do not occur in the runs the claims consider; `g4` returns `x`
unchanged there. -/
def g4 (x : ℚ) : ℚ :=
  if 1 ≤ x then
    let e : ℤ := (Nat.log 10 ⌊x⌋.toNat : ℤ)
    (roundHalfEven (x / (10 : ℚ) ^ (e - 3)) : ℚ) * (10 : ℚ) ^ (e - 3)
  else x

/-- The gradient names accepted by `color_grad`'s validation (line 622). -/
def gradientNames : List String :=
  ["bgr", "rgb", "rainbow", "reverserainbow", "bwr", "rwb",
   "bmr", "rmb", "rw", "wr", "gw", "wg", "bw", "wb", "gy", "yg",
   "gray", "grey", "reversegray", "reversegrey"]

/-- The `coldesc` list built by `make_gradient` (line 687): the color name
`colorname + str(j)` for each bin `j in range(nbins)`. -/
def gradNames (colorname : String) (nbins : ℤ) : List String :=
  (List.range nbins.toNat).map (fun j => colorname ++ toString j)

/-- The `col` list built by `make_gradient` (lines 690-697): for each bin
`j`, each HSV channel moved from its start value toward its end value by
`float(j) / (nbins - 1)`, converted to RGB.  The arithmetic here is exact
where the source rounds in doubles, so theorems drawing on bin values use
only the `j = 0` entry (where the source multiplies the channel deltas by
`float(0)` and is exact as well) and the list length. -/
def gradColors (nbins : ℤ) (hs he ss se vs ve : ℚ) : List (ℚ × ℚ × ℚ) :=
  (List.range nbins.toNat).map (fun (j : ℕ) =>
    hsv_to_rgb (hs - (hs - he) * (j : ℚ) / ((nbins : ℚ) - 1))
               (ss - (ss - se) * (j : ℚ) / ((nbins : ℚ) - 1))
               (vs - (vs - ve) * (j : ℚ) / ((nbins : ℚ) - 1)))

/-- `make_gradient`: `some (coldesc, colors)` — the returned color-name list
and the `(name, rgb)` pairs registered via `cmd.set_color` — for the two
gradient names the body implements (`'bgr'`, `'rainbow'`).  For every other
name the body assigns neither `col` nor `coldesc`, so `return coldesc`
raises an `UnboundLocalError`; that crash is modelled as `none`.  (The
`sel`, `sat` and `value` arguments are accepted but unused, as in the
source.) -/
def make_gradient (sel : List SelPred) (gradient : String) (nbins : ℤ)
    (sat value hs he ss se vs ve : ℚ) (colorname : String) :
    Option (List String × List (String × (ℚ × ℚ × ℚ))) :=
  if gradient = "bgr" ∨ gradient = "rainbow" then
    let coldesc := gradNames colorname nbins
    let col := gradColors nbins hs he ss se vs ve
    some (coldesc, coldesc.zip col)
  else none

/-- The bin count actually used by `color_grad`: line 596 unconditionally
overwrites the `nbins` argument with `int(maximum) - int(minimum) + 2`, and
lines 611-613 replace an overwritten value of exactly 1 by 11. -/
def effectiveNbins (minimum maximum : ℤ) : ℤ :=
  let nbins := maximum - minimum + 2
  if nbins = 1 then 11 else nbins

/-- One atom of the model returned by `cmd.get_model(selection)`: its
residue number and occupancy are all `color_grad` reads. -/
structure Atom where
  resi : ℤ
  q : ℚ
deriving DecidableEq, Repr

/-- Outcome of one `color_grad` invocation: which early `return` (after a
printed message) fired, an unhandled Python exception (`crash`), or normal
completion carrying the list of `cmd.color(colorName, predicate)` calls. -/
inductive GradOutcome where
  | warnBadMode : GradOutcome
  | usage : GradOutcome
  | warnBadGradient : GradOutcome
  | noAtoms : GradOutcome
  | badItem : GradOutcome
  | crash : GradOutcome
  | done : List (String × SelPred) → GradOutcome
deriving DecidableEq, Repr

/-- The `cmd.color` calls an outcome performs (none unless it completed). -/
def colorCalls : GradOutcome → List (String × SelPred)
  | .done calls => calls
  | _ => []

/-- `color_grad`, as a function of its keyword arguments and of the model
`cmd.get_model(selection)` returns.  Mirrors the source's order: overwrite
`nbins` and `colorname`, clamp `sat`/`value`, lowercase, the `nbins == 1`
reset, then the four guarded returns, then (in `hist` mode) the `sel` list,
`make_gradient`, and the coloring loop `cmd.color(colours[j], sel[j])` for
`j in range(nbins)` — which raises `IndexError` (modelled `crash`) if either
list is shorter than `nbins`, as happens in `ramp` mode where `sel` stays
empty.  In `hist` mode with a derived `nbins` of exactly 0 (that is,
`maximum = minimum - 2`) the source raises `ZeroDivisionError` at the
`bin_width` division of line 664, also modelled as `crash`. -/
def color_grad (selection item mode gradient : String) (nbins : ℤ)
    (sat value : ℚ) (minimum maximum : ℤ)
    (hs he ss se vs ve : ℚ) (atoms : List Atom) : GradOutcome :=
  let colorname := "color_" ++ selection
  let sat := max (min sat 1) 0
  let value := max (min value 1) 0
  let gradient := pylower gradient
  let mode := pylower mode
  let nbins := effectiveNbins minimum maximum
  if mode ∉ (["hist", "ramp"] : List String) then .warnBadMode
  else if selection = "" then .usage
  else if gradient ∉ gradientNames then .warnBadGradient
  else if atoms = [] then .noAtoms
  else if item ≠ "b" ∧ item ≠ "q" then .badItem
  else if mode = "hist" ∧ nbins = 0 then .crash
  else
    let sel := if mode = "hist" then histPreds selection item minimum maximum nbins
               else []
    match make_gradient sel gradient nbins sat value hs he ss se vs ve colorname with
    | none => .crash
    | some (colours, _) =>
        if nbins.toNat ≤ sel.length ∧ nbins.toNat ≤ colours.length then
          .done ((colours.zip sel).take nbins.toNat)
        else .crash

/-- The observable result of `Colorama.setselection`: the new `monograd`
mode and the two endpoint color tuples read back. -/
structure SelectionResult where
  monograd : String
  nterm : ℚ × ℚ × ℚ
  cterm : ℚ × ℚ × ℚ
deriving DecidableEq, Repr

/-- The `stored.colorlist` `Colorama.setselection` ends up with (lines
369-382): the ids collected by `cmd.iterate` if any; otherwise the
object-level color id twice; otherwise `[0, 0]`. -/
def colorlistOf (iterColors : List ℤ) (objColor : Option ℤ) : List ℤ :=
  if iterColors.length = 0 then
    match objColor with
    | some c => [c, c]
    | none => [0, 0]
  else iterColors

/-- `Colorama.setselection`, as a function of the entry text, the color ids
collected by `cmd.iterate` (empty when it matched nothing or raised), the
object-level color id fallback (`none` when `cmd.get_object_color_index`
raises), and the `cmd.get_color_tuple` lookup (`none` where it raises —
the source catches either failing call and substitutes gray for both
endpoints).  Returns `none` when the stripped entry is empty (no state
change). -/
def setselection (entry : String) (iterColors : List ℤ) (objColor : Option ℤ)
    (lookup : ℤ → Option (ℚ × ℚ × ℚ)) : Option SelectionResult :=
  if pystrip entry = "" then none
  else
    let colorlist : List ℤ := colorlistOf iterColors objColor
    let pair :=
      match lookup (colorlist.headD 0), lookup (colorlist.getLastD 0) with
      | some a, some b => (a, b)
      | _, _ => (((1:ℚ)/2, (1:ℚ)/2, (1:ℚ)/2), ((1:ℚ)/2, (1:ℚ)/2, (1:ℚ)/2))
    some { monograd := if pair.1 = pair.2 then "mono" else "grad"
           nterm := pair.1
           cterm := pair.2 }

/-! ## Shared lemmas -/

lemma pylower_hist : pylower "hist" = "hist" := rfl

lemma pylower_ramp : pylower "ramp" = "ramp" := rfl

lemma pylower_bgr : pylower "bgr" = "bgr" := rfl

lemma pylower_rgb : pylower "rgb" = "rgb" := rfl

lemma pylower_xyz : pylower "xyz" = "xyz" := rfl

lemma gradNames_length (c : String) (n : ℤ) :
    (gradNames c n).length = n.toNat := by
  simp only [gradNames, List.length_map, List.length_range]

lemma gradColors_length (n : ℤ) (hs he ss se vs ve : ℚ) :
    (gradColors n hs he ss se vs ve).length = n.toNat := by
  simp only [gradColors, List.length_map, List.length_range]

lemma histPreds_length (s i : String) (mn mx n : ℤ) :
    (histPreds s i mn mx n).length = n.toNat - 1 + 1 := by
  simp only [histPreds, List.length_cons, List.length_map, List.length_range]

lemma make_gradient_some {gradient : String}
    (hg : gradient = "bgr" ∨ gradient = "rainbow") (sel : List SelPred)
    (nbins : ℤ) (sat value hs he ss se vs ve : ℚ) (colorname : String) :
    make_gradient sel gradient nbins sat value hs he ss se vs ve colorname =
      some (gradNames colorname nbins,
        (gradNames colorname nbins).zip (gradColors nbins hs he ss se vs ve)) := by
  simp only [make_gradient]
  rw [if_pos hg]

lemma make_gradient_none {gradient : String}
    (h1 : gradient ≠ "bgr") (h2 : gradient ≠ "rainbow") (sel : List SelPred)
    (nbins : ℤ) (sat value hs he ss se vs ve : ℚ) (colorname : String) :
    make_gradient sel gradient nbins sat value hs he ss se vs ve colorname =
      none := by
  simp only [make_gradient]
  rw [if_neg]
  rintro (h | h) <;> [exact h1 h; exact h2 h]

lemma color_grad_eq_badMode {mode : String}
    (hmode : pylower mode ∉ (["hist", "ramp"] : List String))
    (selection item gradient : String) (nbins : ℤ) (sat value : ℚ)
    (minimum maximum : ℤ) (hs he ss se vs ve : ℚ) (atoms : List Atom) :
    color_grad selection item mode gradient nbins sat value minimum maximum
      hs he ss se vs ve atoms = .warnBadMode := by
  simp only [color_grad]
  rw [if_pos hmode]

lemma color_grad_eq_usage {mode selection : String}
    (hmode : pylower mode ∈ (["hist", "ramp"] : List String))
    (hsel : selection = "")
    (item gradient : String) (nbins : ℤ) (sat value : ℚ)
    (minimum maximum : ℤ) (hs he ss se vs ve : ℚ) (atoms : List Atom) :
    color_grad selection item mode gradient nbins sat value minimum maximum
      hs he ss se vs ve atoms = .usage := by
  simp only [color_grad]
  rw [if_neg (not_not_intro hmode), if_pos hsel]

lemma color_grad_eq_badGradient {mode selection gradient : String}
    (hmode : pylower mode ∈ (["hist", "ramp"] : List String))
    (hsel : selection ≠ "")
    (hgrad : pylower gradient ∉ gradientNames)
    (item : String) (nbins : ℤ) (sat value : ℚ)
    (minimum maximum : ℤ) (hs he ss se vs ve : ℚ) (atoms : List Atom) :
    color_grad selection item mode gradient nbins sat value minimum maximum
      hs he ss se vs ve atoms = .warnBadGradient := by
  simp only [color_grad]
  rw [if_neg (not_not_intro hmode), if_neg hsel, if_pos hgrad]

lemma color_grad_eq_noAtoms {mode selection gradient : String}
    (hmode : pylower mode ∈ (["hist", "ramp"] : List String))
    (hsel : selection ≠ "")
    (hgrad : pylower gradient ∈ gradientNames)
    (item : String) (nbins : ℤ) (sat value : ℚ)
    (minimum maximum : ℤ) (hs he ss se vs ve : ℚ) :
    color_grad selection item mode gradient nbins sat value minimum maximum
      hs he ss se vs ve [] = .noAtoms := by
  simp only [color_grad]
  rw [if_neg (not_not_intro hmode), if_neg hsel, if_neg (not_not_intro hgrad)]
  simp

lemma effectiveNbins_eq {minimum maximum : ℤ} (hmm : minimum ≤ maximum) :
    effectiveNbins minimum maximum = maximum - minimum + 2 := by
  simp only [effectiveNbins]
  rw [if_neg (by omega)]

lemma color_grad_hist_done (mode selection gradient item : String)
    (minimum maximum : ℤ) (atoms : List Atom)
    (hmode : pylower mode = "hist")
    (hsel : selection ≠ "")
    (hgrad : pylower gradient = "bgr" ∨ pylower gradient = "rainbow")
    (hitem : item = "b" ∨ item = "q")
    (hmm : minimum ≤ maximum)
    (hatoms : atoms ≠ [])
    (nbins : ℤ) (sat value : ℚ) (hs he ss se vs ve : ℚ) :
    color_grad selection item mode gradient nbins sat value minimum maximum
      hs he ss se vs ve atoms =
      .done ((gradNames ("color_" ++ selection)
          (effectiveNbins minimum maximum)).zip
        (histPreds selection item minimum maximum
          (effectiveNbins minimum maximum))) := by
  have hmem : pylower mode ∈ (["hist", "ramp"] : List String) := by
    rw [hmode]; decide
  have hgmem : pylower gradient ∈ gradientNames := by
    rcases hgrad with h | h <;> rw [h] <;> decide
  have hitem2 : ¬(item ≠ "b" ∧ item ≠ "q") := by
    rcases hitem with h | h <;> simp [h]
  have heff : effectiveNbins minimum maximum = maximum - minimum + 2 :=
    effectiveNbins_eq hmm
  have hlen1 : (effectiveNbins minimum maximum).toNat ≤
      (histPreds selection item minimum maximum
        (effectiveNbins minimum maximum)).length := by
    rw [histPreds_length]; omega
  have hlen2 : (effectiveNbins minimum maximum).toNat ≤
      (gradNames ("color_" ++ selection)
        (effectiveNbins minimum maximum)).length := by
    rw [gradNames_length]
  have hguard : ¬(("hist" : String) = "hist" ∧
      effectiveNbins minimum maximum = 0) := by
    rw [heff]
    rintro ⟨-, h0⟩
    omega
  simp only [color_grad]
  rw [if_neg (not_not_intro hmem), if_neg hsel, if_neg (not_not_intro hgmem),
    if_neg hatoms, if_neg hitem2, hmode, if_neg hguard, if_pos rfl,
    make_gradient_some hgrad]
  show ite _ _ _ = _
  rw [if_pos ⟨hlen1, hlen2⟩, List.take_of_length_le]
  rw [List.length_zip, gradNames_length, histPreds_length]
  omega

lemma color_grad_eq_crash_unimplemented {mode selection gradient item : String}
    {atoms : List Atom}
    (hmode : pylower mode ∈ (["hist", "ramp"] : List String))
    (hsel : selection ≠ "")
    (hgmem : pylower gradient ∈ gradientNames)
    (h1 : pylower gradient ≠ "bgr") (h2 : pylower gradient ≠ "rainbow")
    (hatoms : atoms ≠ []) (hitem : item = "b" ∨ item = "q")
    (nbins : ℤ) (sat value : ℚ) (minimum maximum : ℤ)
    (hs he ss se vs ve : ℚ) :
    color_grad selection item mode gradient nbins sat value minimum maximum
      hs he ss se vs ve atoms = .crash := by
  have hitem2 : ¬(item ≠ "b" ∧ item ≠ "q") := by
    rcases hitem with h | h <;> simp [h]
  simp only [color_grad]
  rw [if_neg (not_not_intro hmode), if_neg hsel, if_neg (not_not_intro hgmem),
    if_neg hatoms, if_neg hitem2]
  by_cases hzero : pylower mode = "hist" ∧ effectiveNbins minimum maximum = 0
  · rw [if_pos hzero]
  · rw [if_neg hzero, make_gradient_none h1 h2]

lemma color_grad_eq_crash_ramp {mode selection gradient item : String}
    {minimum maximum : ℤ} {atoms : List Atom}
    (hmode : pylower mode = "ramp")
    (hsel : selection ≠ "")
    (hgrad : pylower gradient = "bgr" ∨ pylower gradient = "rainbow")
    (hitem : item = "b" ∨ item = "q")
    (hmm : minimum ≤ maximum)
    (hatoms : atoms ≠ [])
    (nbins : ℤ) (sat value : ℚ) (hs he ss se vs ve : ℚ) :
    color_grad selection item mode gradient nbins sat value minimum maximum
      hs he ss se vs ve atoms = .crash := by
  have hmem : pylower mode ∈ (["hist", "ramp"] : List String) := by
    rw [hmode]; decide
  have hgmem : pylower gradient ∈ gradientNames := by
    rcases hgrad with h | h <;> rw [h] <;> decide
  have hitem2 : ¬(item ≠ "b" ∧ item ≠ "q") := by
    rcases hitem with h | h <;> simp [h]
  simp only [color_grad]
  rw [if_neg (not_not_intro hmem), if_neg hsel, if_neg (not_not_intro hgmem),
    if_neg hatoms, if_neg hitem2, hmode,
    if_neg (by rintro ⟨hcon, -⟩; exact absurd hcon (by decide)),
    if_neg (by decide : ¬("ramp" : String) = "hist"), make_gradient_some hgrad]
  show ite _ _ _ = _
  rw [if_neg]
  rw [effectiveNbins_eq hmm, List.length_nil]
  intro hcon
  omega

lemma dummy_ne (s : String) : "dummy-" ++ s ≠ s := by
  intro h
  have hlen := congrArg String.length h
  rw [String.length_append] at hlen
  have h6 : ("dummy-" : String).length = 6 := rfl
  omega

lemma colorCalls_warnBadMode : colorCalls .warnBadMode = [] := rfl

lemma colorCalls_usage : colorCalls .usage = [] := rfl

lemma colorCalls_warnBadGradient : colorCalls .warnBadGradient = [] := rfl

lemma colorCalls_noAtoms : colorCalls .noAtoms = [] := rfl

/-! ## Claim C6 -/

/-- **C6.** For every invocation of `color_grad` with a mode outside
`{hist, ramp}`, an unknown gradient-preset name, or an empty selection
attribute list, the operation aborts with a reported message (the matching
early return) and performs zero `cmd.color` applications; these validations
fire before any coloring, so a partial set of bin colors is never applied. -/
theorem c6_validation_aborts (selection item mode gradient : String)
    (nbins : ℤ) (sat value : ℚ) (minimum maximum : ℤ)
    (hs he ss se vs ve : ℚ) (atoms : List Atom) :
    (pylower mode ∉ (["hist", "ramp"] : List String) →
      color_grad selection item mode gradient nbins sat value minimum maximum
        hs he ss se vs ve atoms = .warnBadMode) ∧
    (pylower mode ∈ (["hist", "ramp"] : List String) → selection ≠ "" →
      pylower gradient ∉ gradientNames →
      color_grad selection item mode gradient nbins sat value minimum maximum
        hs he ss se vs ve atoms = .warnBadGradient) ∧
    (pylower mode ∈ (["hist", "ramp"] : List String) → selection ≠ "" →
      pylower gradient ∈ gradientNames → atoms = [] →
      color_grad selection item mode gradient nbins sat value minimum maximum
        hs he ss se vs ve atoms = .noAtoms) ∧
    ((pylower mode ∉ (["hist", "ramp"] : List String) ∨
      pylower gradient ∉ gradientNames ∨ atoms = []) →
      colorCalls (color_grad selection item mode gradient nbins sat value
        minimum maximum hs he ss se vs ve atoms) = []) := by
  refine ⟨?_, ?_, ?_, ?_⟩
  · intro hmode
    exact color_grad_eq_badMode hmode ..
  · intro hmode hsel hgrad
    exact color_grad_eq_badGradient hmode hsel hgrad ..
  · intro hmode hsel hgrad hatoms
    subst hatoms
    exact color_grad_eq_noAtoms hmode hsel hgrad ..
  · intro hbad
    by_cases hmode : pylower mode ∈ (["hist", "ramp"] : List String)
    · by_cases hsel : selection = ""
      · rw [color_grad_eq_usage hmode hsel]
        rfl
      · by_cases hgrad : pylower gradient ∈ gradientNames
        · have hatoms : atoms = [] := by tauto
          subst hatoms
          rw [color_grad_eq_noAtoms hmode hsel hgrad]
          rfl
        · rw [color_grad_eq_badGradient hmode hsel hgrad]
          rfl
    · rw [color_grad_eq_badMode hmode]
      rfl

/-- Witness for `c6_validation_aborts`: a bad mode (`"xyz"`), an unknown
gradient preset (`"xyz"`), and an empty atom list each abort with zero
`cmd.color` calls. -/
theorem c6_validation_aborts_witness :
    color_grad "m" "b" "xyz" "bgr" 11 1 1 1 10 1 1 1 1 1 1 [⟨1, 1⟩]
        = .warnBadMode ∧
    color_grad "m" "b" "hist" "xyz" 11 1 1 1 10 1 1 1 1 1 1 [⟨1, 1⟩]
        = .warnBadGradient ∧
    color_grad "m" "b" "hist" "bgr" 11 1 1 1 10 1 1 1 1 1 1 []
        = .noAtoms ∧
    colorCalls (color_grad "m" "b" "xyz" "bgr" 11 1 1 1 10 1 1 1 1 1 1
        [⟨1, 1⟩]) = [] :=
  ⟨(c6_validation_aborts "m" "b" "xyz" "bgr" 11 1 1 1 10 1 1 1 1 1 1
      [⟨1, 1⟩]).1 (by decide),
   (c6_validation_aborts "m" "b" "hist" "xyz" 11 1 1 1 10 1 1 1 1 1 1
      [⟨1, 1⟩]).2.1 (by decide) (by decide) (by decide),
   (c6_validation_aborts "m" "b" "hist" "bgr" 11 1 1 1 10 1 1 1 1 1 1
      []).2.2.1 (by decide) (by decide) (by decide) rfl,
   (c6_validation_aborts "m" "b" "xyz" "bgr" 11 1 1 1 10 1 1 1 1 1 1
      [⟨1, 1⟩]).2.2.2 (Or.inl (by decide))⟩

/-! ## Claim C7 -/

/-- **C7** (code bug).  The spec promises that every invocation — including
every gradient preset in the accepted list, such as `'rgb'` — terminates
with failures surfaced as printed messages.  In fact, for every accepted
preset other than `'bgr'`/`'rainbow'`, `make_gradient` reaches
`return coldesc` with `coldesc` never assigned and raises an unhandled
`UnboundLocalError`: at the concrete valid input below with
`gradient='rgb'` the run crashes. -/
theorem c7_accepted_preset_crashes :
    ("rgb" ∈ gradientNames) ∧
    make_gradient [] "rgb" 11 1 1 1 1 1 1 1 1 "c" = none ∧
    color_grad "m" "b" "hist" "rgb" 11 1 1 1 10 1 1 1 1 1 1 [⟨1, 1⟩]
      = .crash := by
  refine ⟨by decide, make_gradient_none (by decide) (by decide) .., ?_⟩
  exact color_grad_eq_crash_unimplemented (by decide) (by decide) (by decide)
    (by decide) (by decide) (by decide) (Or.inl rfl) ..

/-! ## Claim C8 -/

/-- **C8.** In histogram mode with bin count `n ≥ 2`, only bin 0's
predicate references the original selection; every bin `j ∈ [1, n-1]`
references the dummy copy object `"dummy-" + selection`, so exactly one of
the `n` bin colors is applied to the selection itself. -/
theorem c8_only_bin0_targets_selection (selection item : String)
    (minimum maximum nbins : ℤ) (hn : 2 ≤ nbins) :
    ((histPreds selection item minimum maximum nbins).map SelPred.obj =
      selection :: List.replicate (nbins.toNat - 1) ("dummy-" ++ selection)) ∧
    (histPreds selection item minimum maximum nbins).countP
      (fun p => p.obj == selection) = 1 := by
  have hmap : (histPreds selection item minimum maximum nbins).map SelPred.obj =
      selection :: List.replicate (nbins.toNat - 1) ("dummy-" ++ selection) := by
    simp only [histPreds, List.map_cons, List.map_map]
    congr 1
    rw [show (SelPred.obj ∘ fun (j : ℕ) =>
        SelPred.mk ("dummy-" ++ selection) item
          (((minimum : ℚ) - 1) + ((j : ℚ) + 1) * bin_width minimum maximum nbins))
      = fun _ => "dummy-" ++ selection from rfl]
    rw [List.map_const', List.length_range]
  refine ⟨hmap, ?_⟩
  have h2 : List.countP (fun o => o == selection)
      (selection :: List.replicate (nbins.toNat - 1) ("dummy-" ++ selection))
        = 1 := by
    rw [List.countP_cons, List.countP_eq_zero.mpr]
    · simp
    · intro a ha
      rw [List.eq_of_mem_replicate ha]
      simpa using dummy_ne selection
  calc List.countP (fun p => p.obj == selection)
        (histPreds selection item minimum maximum nbins)
      = List.countP (fun o => o == selection)
          ((histPreds selection item minimum maximum nbins).map SelPred.obj) := by
        rw [List.countP_map]; rfl
    _ = 1 := by rw [hmap, h2]

/-- Witness for `c8_only_bin0_targets_selection` at a concrete input. -/
theorem c8_only_bin0_targets_selection_witness :
    ((histPreds "m" "b" 1 10 11).map SelPred.obj =
      "m" :: List.replicate 10 "dummy-m") ∧
    (histPreds "m" "b" 1 10 11).countP (fun p => p.obj == "m") = 1 :=
  c8_only_bin0_targets_selection "m" "b" 1 10 11 (by decide)

lemma colorCalls_done (l : List (String × SelPred)) :
    colorCalls (.done l) = l := rfl

lemma gradColors_get (n : ℤ) (hs he ss se vs ve : ℚ) (j : ℕ)
    (hj : j < (gradColors n hs he ss se vs ve).length) :
    (gradColors n hs he ss se vs ve).get ⟨j, hj⟩ =
      hsv_to_rgb (hs - (hs - he) * (j : ℚ) / ((n : ℚ) - 1))
        (ss - (ss - se) * (j : ℚ) / ((n : ℚ) - 1))
        (vs - (vs - ve) * (j : ℚ) / ((n : ℚ) - 1)) := by
  simp [gradColors]

/-! ## Claim C2 -/

/-- **C2** (amended to the two presets `make_gradient` implements, and to
the bin-0 guarantee that survives the source's float arithmetic).  For the
presets `'bgr'` and `'rainbow'` and bin count `n ≥ 2`, `make_gradient`
returns exactly `n` color names with `n` registered colors, and bin 0's
color is exactly the start HSV triple converted to RGB: the `j = 0` step
multiplies each channel delta by `float(0)`, so the start triple reaches
`hsv_to_rgb` unchanged, in IEEE doubles as well as here.  Later bins step
each channel by `(start-end)·j/(n-1)` — the spec's linear interpolation —
but reach the end triple at `j = n-1` only up to floating-point rounding,
not exactly, so no endpoint-exactness is claimed; for every other accepted
preset the function crashes instead (see the counterexample). -/
theorem c2_bins (gradient : String)
    (hg : gradient = "bgr" ∨ gradient = "rainbow")
    (nbins : ℤ) (hn : 2 ≤ nbins) (sel : List SelPred)
    (sat value hs he ss se vs ve : ℚ) (colorname : String) :
    (make_gradient sel gradient nbins sat value hs he ss se vs ve colorname =
      some (gradNames colorname nbins,
        (gradNames colorname nbins).zip
          (gradColors nbins hs he ss se vs ve))) ∧
    (gradNames colorname nbins).length = nbins.toNat ∧
    (gradColors nbins hs he ss se vs ve).length = nbins.toNat ∧
    (gradColors nbins hs he ss se vs ve).head? =
      some (hsv_to_rgb hs ss vs) := by
  obtain ⟨k, hk⟩ : ∃ k, nbins.toNat = k + 1 :=
    Nat.exists_eq_succ_of_ne_zero (by omega)
  refine ⟨make_gradient_some hg .., gradNames_length .., gradColors_length ..,
    ?_⟩
  rw [gradColors, hk, List.range_succ_eq_map, List.map_cons]
  norm_num

/-- Witness for `c2_bins` at preset `'bgr'`, two bins, and concrete HSV
endpoints. -/
theorem c2_bins_witness :
    (make_gradient [] "bgr" 2 1 1 (3/10) (2/5) (7/10) (1/5) 1 (1/2) "c" =
      some (gradNames "c" 2,
        (gradNames "c" 2).zip
          (gradColors 2 (3/10) (2/5) (7/10) (1/5) 1 (1/2)))) ∧
    (gradNames "c" 2).length = 2 ∧
    (gradColors 2 (3/10) (2/5) (7/10) (1/5) 1 (1/2)).length = 2 ∧
    (gradColors 2 (3/10) (2/5) (7/10) (1/5) 1 (1/2)).head? =
      some (hsv_to_rgb (3/10) (7/10) 1) :=
  c2_bins "bgr" (Or.inl rfl) 2 (by decide) [] 1 1 (3/10) (2/5) (7/10) (1/5)
    1 (1/2) "c"

/-- **C2** counterexample: `'bwr'` is in the accepted preset list, yet
`make_gradient` has no branch for it — the modelled `UnboundLocalError`
(`none`) means it does not return `n` colors for this valid spec. -/
theorem c2_unimplemented_counterexample :
    ("bwr" ∈ gradientNames) ∧
    make_gradient [] "bwr" 2 1 1 (3/10) (2/5) (7/10) (1/5) 1 (1/2) "c"
      = none :=
  ⟨by decide, make_gradient_none (by decide) (by decide) ..⟩

lemma histPreds_thr_1_10_11 : (histPreds "m" "b" 1 10 11).map SelPred.thr
    = [1, 1, 2, 3, 4, 5, 6, 7, 8, 9, 10] := by
  have hw : bin_width 1 10 11 = 1 := by norm_num [bin_width]
  simp only [histPreds, hw, show (11 : ℤ).toNat - 1 = 10 from rfl]
  norm_num [List.range_succ]

/-! ## Claim C3 -/

/-- **C3** (amended).  For `minimum=1, maximum=10, binCount=11` the bin
width is `(11-0)/11 = 1` and the thresholds follow the formulas the claim
cites — bin 0 selects `minBound + binWidth = 1` and bin `j>0` selects
`minBound + j*binWidth = j` — but the resulting sequence is
`1,1,2,...,10`, not `1,2,...,11`: bins 0 and 1 share threshold 1 and
threshold 11 never occurs. -/
theorem c3_thresholds :
    bin_width 1 10 11 = 1 ∧
    effectiveNbins 1 10 = 11 ∧
    (histPreds "m" "b" 1 10 11).map SelPred.thr
      = [1, 1, 2, 3, 4, 5, 6, 7, 8, 9, 10] :=
  ⟨by norm_num [bin_width], by decide, histPreds_thr_1_10_11⟩

/-- **C3** counterexample: the emitted threshold sequence is not
`1,2,...,11` as the claim states. -/
theorem c3_thresholds_counterexample :
    (histPreds "m" "b" 1 10 11).map SelPred.thr
      ≠ [1, 2, 3, 4, 5, 6, 7, 8, 9, 10, 11] := by
  rw [histPreds_thr_1_10_11]
  intro heq
  rw [List.cons.injEq, List.cons.injEq] at heq
  norm_num at heq

/-! ## Claim C4 -/

lemma roundHalfEven_of_floor {x : ℚ} {f : ℤ} (hf : ⌊x⌋ = f)
    (hr : x - (f : ℚ) < 1 / 2) : roundHalfEven x = f := by
  simp only [roundHalfEven, hf]
  rw [if_pos hr]

lemma g4_eval (m e : ℕ) {x : ℚ} (h1 : 1 ≤ x) (hm : ⌊x⌋ = (m : ℤ))
    (hlog : Nat.log 10 m = e) :
    g4 x = (roundHalfEven (x / (10 : ℚ) ^ (((e : ℕ) : ℤ) - 3)) : ℚ) *
      (10 : ℚ) ^ (((e : ℕ) : ℤ) - 3) := by
  simp only [g4, if_pos h1, hm, Int.toNat_natCast, hlog]

lemma g4_digit (k : ℕ) (h1 : 1 ≤ k) (h9 : k ≤ 9) : g4 (k : ℚ) = k := by
  rw [g4_eval k 0 (by exact_mod_cast h1) (Int.floor_natCast k)
    (Nat.log_eq_of_pow_le_of_lt_pow (by simpa using h1) (by norm_num; omega))]
  rw [show (10 : ℚ) ^ (((0 : ℕ) : ℤ) - 3) = 1 / 1000 by norm_num]
  rw [show (k : ℚ) / (1 / 1000) = (((1000 * k : ℕ) : ℤ) : ℚ) by
    push_cast; ring]
  rw [roundHalfEven_of_floor (Int.floor_intCast _) (by norm_num)]
  push_cast
  ring

lemma g4_ten : g4 (10 : ℚ) = 10 := by
  rw [g4_eval 10 1 (by norm_num) (by norm_num)
    (Nat.log_eq_of_pow_le_of_lt_pow (by norm_num) (by norm_num))]
  rw [show (10 : ℚ) ^ (((1 : ℕ) : ℤ) - 3) = 1 / 100 by norm_num]
  rw [show (10 : ℚ) / (1 / 100) = ((1000 : ℤ) : ℚ) by norm_num]
  rw [roundHalfEven_of_floor (Int.floor_intCast _) (by norm_num)]
  norm_num

lemma g4_ten_thousand : g4 (10000 : ℚ) = 10000 := by
  rw [g4_eval 10000 4 (by norm_num) (by norm_num)
    (Nat.log_eq_of_pow_le_of_lt_pow (by norm_num) (by norm_num))]
  rw [show (10 : ℚ) ^ (((4 : ℕ) : ℤ) - 3) = 10 by norm_num]
  rw [show (10000 : ℚ) / 10 = ((1000 : ℤ) : ℚ) by norm_num]
  rw [roundHalfEven_of_floor (Int.floor_intCast _) (by norm_num)]
  norm_num

lemma g4_ten_thousand_one : g4 (10001 : ℚ) = 10000 := by
  have hf : ⌊(10001 : ℚ) / 10⌋ = 1000 := by norm_num
  rw [g4_eval 10001 4 (by norm_num) (by norm_num)
    (Nat.log_eq_of_pow_le_of_lt_pow (by norm_num) (by norm_num))]
  rw [show (10 : ℚ) ^ (((4 : ℕ) : ℤ) - 3) = 10 by norm_num]
  rw [roundHalfEven_of_floor hf (by norm_num)]
  norm_num

lemma histPreds_map_getD_succ {α : Type} (f : SelPred → α) (d : α)
    (s i : String) (mn mx n : ℤ) (k : ℕ) (hk : k < n.toNat - 1) :
    ((histPreds s i mn mx n).map f).getD (k + 1) d =
      f (SelPred.mk ("dummy-" ++ s) i
        (((mn : ℚ) - 1) + ((k : ℚ) + 1) * bin_width mn mx n)) := by
  simp only [histPreds, List.map_cons, List.getD_cons_succ, List.map_map]
  rw [List.getD_eq_getElem?_getD, List.getElem?_map, List.getElem?_range hk]
  rfl

/-- **C4** (amended).  Bin 0's numeric threshold always equals bin 1's, yet
the two address different objects (the selection vs. the dummy copy); in
the default run (`minimum=1, maximum=10`, `n=11`) the `%4.4g` formatting is
lossless on the thresholds `1..10`, so the eleven emitted
(object, formatted-threshold) targets are pairwise distinct and no color
application overwrites another.  This no-overwrite guarantee does not
survive wide ranges: the predicate text carries only 4 significant digits,
and in the `maximum=10001` run bins 10000 and 10001 have distinct numeric
thresholds (10000 and 10001) but identical formatted targets
(`dummy` object, `1e+04`), so the later color overwrites the earlier. -/
theorem c4_formatted_buckets :
    ((histPreds "m" "b" 1 10 11).map (fun p => (p.obj, g4 p.thr))).Nodup ∧
    ((histPreds "m" "b" 1 10 11).map SelPred.thr).getD 0 99
      = ((histPreds "m" "b" 1 10 11).map SelPred.thr).getD 1 99 ∧
    ((histPreds "m" "b" 1 10 11).map SelPred.obj).getD 0 ""
      ≠ ((histPreds "m" "b" 1 10 11).map SelPred.obj).getD 1 "" ∧
    ((histPreds "m" "b" 1 10001 10002).map SelPred.thr).getD 10000 0
      = 10000 ∧
    ((histPreds "m" "b" 1 10001 10002).map SelPred.thr).getD 10001 0
      = 10001 ∧
    ((histPreds "m" "b" 1 10001 10002).map
        (fun p => (p.obj, g4 p.thr))).getD 10000 ("", 0)
      = ((histPreds "m" "b" 1 10001 10002).map
          (fun p => (p.obj, g4 p.thr))).getD 10001 ("", 0) ∧
    (histPreds "m" "b" 1 10001 10002).length = 10002 := by
  have hw : bin_width 1 10 11 = 1 := by norm_num [bin_width]
  have hw2 : bin_width 1 10001 10002 = 1 := by norm_num [bin_width]
  have g1 : g4 1 = 1 := by exact_mod_cast g4_digit 1 (by norm_num) (by norm_num)
  have g2 : g4 2 = 2 := by exact_mod_cast g4_digit 2 (by norm_num) (by norm_num)
  have g3 : g4 3 = 3 := by exact_mod_cast g4_digit 3 (by norm_num) (by norm_num)
  have g4v : g4 4 = 4 := by
    exact_mod_cast g4_digit 4 (by norm_num) (by norm_num)
  have g5 : g4 5 = 5 := by exact_mod_cast g4_digit 5 (by norm_num) (by norm_num)
  have g6 : g4 6 = 6 := by exact_mod_cast g4_digit 6 (by norm_num) (by norm_num)
  have g7 : g4 7 = 7 := by exact_mod_cast g4_digit 7 (by norm_num) (by norm_num)
  have g8 : g4 8 = 8 := by exact_mod_cast g4_digit 8 (by norm_num) (by norm_num)
  have g9 : g4 9 = 9 := by exact_mod_cast g4_digit 9 (by norm_num) (by norm_num)
  refine ⟨?_, ?_, ?_, ?_, ?_, ?_, ?_⟩
  · have hpairs : (histPreds "m" "b" 1 10 11).map
        (fun p => (p.obj, g4 p.thr)) =
        [("m", 1), ("dummy-m", 1), ("dummy-m", 2), ("dummy-m", 3),
         ("dummy-m", 4), ("dummy-m", 5), ("dummy-m", 6), ("dummy-m", 7),
         ("dummy-m", 8), ("dummy-m", 9), ("dummy-m", 10)] := by
      simp only [histPreds, hw, show (11 : ℤ).toNat - 1 = 10 from rfl]
      norm_num [List.range_succ, g1, g2, g3, g4v, g5, g6, g7, g8, g9, g4_ten,
        show ("dummy-" ++ "m" : String) = "dummy-m" from rfl]
    rw [hpairs]
    decide
  · rw [histPreds_thr_1_10_11]
    simp only [List.getD_cons_zero, List.getD_cons_succ]
  · simp only [histPreds, show (11 : ℤ).toNat - 1 = 10 from rfl,
      List.range_succ_eq_map, List.map_cons, List.getD_cons_zero,
      List.getD_cons_succ]
    decide
  · rw [show (10000 : ℕ) = 9999 + 1 from rfl,
      histPreds_map_getD_succ SelPred.thr 0 "m" "b" 1 10001 10002 9999
        (by decide), hw2]
    norm_num
  · rw [show (10001 : ℕ) = 10000 + 1 from rfl,
      histPreds_map_getD_succ SelPred.thr 0 "m" "b" 1 10001 10002 10000
        (by decide), hw2]
    norm_num
  · rw [show (10000 : ℕ) = 9999 + 1 from rfl,
      show (10001 : ℕ) = 10000 + 1 from rfl,
      histPreds_map_getD_succ (fun p => (p.obj, g4 p.thr)) ("", 0)
        "m" "b" 1 10001 10002 9999 (by decide),
      histPreds_map_getD_succ (fun p => (p.obj, g4 p.thr)) ("", 0)
        "m" "b" 1 10001 10002 10000 (by decide), hw2]
    norm_num [g4_ten_thousand, g4_ten_thousand_one]
  · rw [histPreds_length]
    decide

/-- **C4** counterexample: with `minimum=1, maximum=10, binCount=11`, the
predicates of bins 0 and 1 select the same attribute threshold (both 1),
refuting "no two predicates in the sequence select the same attribute
threshold". -/
theorem c4_shared_threshold_counterexample :
    ((histPreds "m" "b" 1 10 11).map SelPred.thr).getD 0 99 = 1 ∧
    ((histPreds "m" "b" 1 10 11).map SelPred.thr).getD 1 99 = 1 ∧
    (histPreds "m" "b" 1 10 11).length = 11 := by
  rw [histPreds_thr_1_10_11]
  refine ⟨rfl, rfl, ?_⟩
  rw [histPreds_length]
  decide

/-! ## Claim C5 -/

/-- **C5** (amended).  The caller-supplied `nbins` argument is always
ignored: line 596 unconditionally overwrites it with
`maximum - minimum + 2`, so two invocations differing only in `nbins` are
identical.  A derived value of exactly 1 (which happens exactly when
`maximum = minimum - 1`) is replaced by 11 with a printed warning; the
effective bin count is `≥ 2` whenever `maximum ≥ minimum - 1`, but for
`maximum < minimum - 1` it is `≤ 0`, not `≥ 2`. -/
theorem c5_nbins_overwritten (selection item mode gradient : String)
    (n1 n2 : ℤ) (sat value : ℚ) (minimum maximum : ℤ)
    (hs he ss se vs ve : ℚ) (atoms : List Atom) :
    (color_grad selection item mode gradient n1 sat value minimum maximum
        hs he ss se vs ve atoms =
      color_grad selection item mode gradient n2 sat value minimum maximum
        hs he ss se vs ve atoms) ∧
    (maximum = minimum - 1 → effectiveNbins minimum maximum = 11) ∧
    (minimum - 1 ≤ maximum → 2 ≤ effectiveNbins minimum maximum) ∧
    (maximum - minimum + 2 ≠ 1 →
      effectiveNbins minimum maximum = maximum - minimum + 2) := by
  refine ⟨rfl, ?_, ?_, ?_⟩
  · intro h
    simp only [effectiveNbins]
    rw [if_pos (by omega)]
  · intro h
    simp only [effectiveNbins]
    split_ifs <;> omega
  · intro h
    simp only [effectiveNbins]
    rw [if_neg h]

/-- Witness for `c5_nbins_overwritten` at concrete inputs. -/
theorem c5_nbins_overwritten_witness :
    (color_grad "m" "b" "hist" "bgr" 5 1 1 1 10 1 1 1 1 1 1 [⟨1, 1⟩] =
      color_grad "m" "b" "hist" "bgr" 7 1 1 1 10 1 1 1 1 1 1 [⟨1, 1⟩]) ∧
    effectiveNbins 5 4 = 11 ∧
    2 ≤ effectiveNbins 1 10 ∧
    effectiveNbins 1 10 = 11 :=
  ⟨(c5_nbins_overwritten "m" "b" "hist" "bgr" 5 7 1 1 1 10 1 1 1 1 1 1
      [⟨1, 1⟩]).1,
   (c5_nbins_overwritten "m" "b" "hist" "bgr" 5 7 1 1 5 4 1 1 1 1 1 1
      [⟨1, 1⟩]).2.1 (by decide),
   (c5_nbins_overwritten "m" "b" "hist" "bgr" 5 7 1 1 1 10 1 1 1 1 1 1
      [⟨1, 1⟩]).2.2.1 (by decide),
   (c5_nbins_overwritten "m" "b" "hist" "bgr" 5 7 1 1 1 10 1 1 1 1 1 1
      [⟨1, 1⟩]).2.2.2 (by decide)⟩

/-- **C5** counterexample: a caller-supplied `nbins = 5` is not used — the
invocation colors `11` bins (the auto-derived `10 - 1 + 2`), refuting "the
effective bin count is the caller-supplied nbins when one is provided". -/
theorem c5_nbins_ignored_counterexample :
    (colorCalls (color_grad "m" "b" "hist" "bgr" 5 1 1 1 10 1 1 1 1 1 1
      [⟨1, 1⟩])).length = 11 ∧
    (colorCalls (color_grad "m" "b" "hist" "bgr" 5 1 1 1 10 1 1 1 1 1 1
      [⟨1, 1⟩])).length ≠ 5 := by
  rw [color_grad_hist_done "hist" "m" "bgr" "b" 1 10 [⟨1, 1⟩] pylower_hist
    (by decide) (Or.inl pylower_bgr) (Or.inl rfl) (by decide) (by decide)
    5 1 1 1 1 1 1 1 1]
  rw [colorCalls_done, List.length_zip, gradNames_length, histPreds_length]
  decide

/-! ## Claim C10 -/

/-- **C10.** On selection activation with a non-empty entry: if the color
tuples read for the first and last members of the selection's color list
are identical the resulting mode is `mono`; if they differ it is `grad`;
and when the color lookup fails, both endpoints fall back to the neutral
gray `(0.5, 0.5, 0.5)`, which yields `mono`. -/
theorem c10_mode_detection (entry : String) (iterColors : List ℤ)
    (objColor : Option ℤ) (lookup : ℤ → Option (ℚ × ℚ × ℚ))
    (hentry : pystrip entry ≠ "") (a b : ℚ × ℚ × ℚ) :
    (lookup ((colorlistOf iterColors objColor).headD 0) = some a →
     lookup ((colorlistOf iterColors objColor).getLastD 0) = some b →
     a = b →
       setselection entry iterColors objColor lookup =
         some ⟨"mono", a, b⟩) ∧
    (lookup ((colorlistOf iterColors objColor).headD 0) = some a →
     lookup ((colorlistOf iterColors objColor).getLastD 0) = some b →
     a ≠ b →
       setselection entry iterColors objColor lookup =
         some ⟨"grad", a, b⟩) ∧
    (lookup ((colorlistOf iterColors objColor).headD 0) = none ∨
     lookup ((colorlistOf iterColors objColor).getLastD 0) = none →
       setselection entry iterColors objColor lookup =
         some ⟨"mono", (1/2, 1/2, 1/2), (1/2, 1/2, 1/2)⟩) := by
  refine ⟨?_, ?_, ?_⟩
  · intro ha hb hab
    subst hab
    simp only [setselection]
    rw [if_neg hentry, ha, hb]
    simp
  · intro ha hb hab
    simp only [setselection]
    rw [if_neg hentry, ha, hb]
    simp [hab]
  · rintro (h | h)
    · simp only [setselection]
      rw [if_neg hentry, h]
      simp
    · rcases hh : lookup ((colorlistOf iterColors objColor).headD 0)
        with _ | a2
      · simp only [setselection]
        rw [if_neg hentry, hh]
        simp
      · simp only [setselection]
        rw [if_neg hentry, hh, h]
        simp

/-- Witness for `c10_mode_detection`: same endpoint colors give `mono`,
different ones give `grad`, failing lookups give gray and `mono`. -/
theorem c10_mode_detection_witness :
    (setselection "m" [2, 3] none (fun _ => some (1, 0, 0)) =
      some ⟨"mono", (1, 0, 0), (1, 0, 0)⟩) ∧
    (setselection "m" [2, 3] none
        (fun i => if i = 2 then some (1, 0, 0) else some (0, 0, 1)) =
      some ⟨"grad", (1, 0, 0), (0, 0, 1)⟩) ∧
    (setselection "m" [2, 3] none (fun _ => none) =
      some ⟨"mono", (1/2, 1/2, 1/2), (1/2, 1/2, 1/2)⟩) :=
  ⟨(c10_mode_detection "m" [2, 3] none (fun _ => some (1, 0, 0))
      (by decide) (1, 0, 0) (1, 0, 0)).1 rfl rfl rfl,
   (c10_mode_detection "m" [2, 3] none
      (fun i => if i = 2 then some (1, 0, 0) else some (0, 0, 1))
      (by decide) (1, 0, 0) (0, 0, 1)).2.1 rfl rfl (by decide),
   (c10_mode_detection "m" [2, 3] none (fun _ => none)
      (by decide) 0 0).2.2 (Or.inl rfl)⟩

lemma sliderRoundtrip_1_0_0 : sliderRoundtrip 1 0 0 = (0, 0, 0) := by
  simp only [sliderRoundtrip, rgbSliders, Scalehsv, Scalergb, Slider.get_value,
    Slider.set_value, Slider.set_range, Slider.setMinimum, Slider.setMaximum,
    Slider.setValue, rgb_to_hsv, hsv_to_rgb, pymod1, pytrunc, qBound,
    max_def, min_def]
  norm_num

lemma sliderRoundtrip_255_128_0 : sliderRoundtrip 255 128 0 = (255, 122, 0) := by
  simp only [sliderRoundtrip, rgbSliders, Scalehsv, Scalergb, Slider.get_value,
    Slider.set_value, Slider.set_range, Slider.setMinimum, Slider.setMaximum,
    Slider.setValue, rgb_to_hsv, hsv_to_rgb, pymod1, pytrunc, qBound,
    max_def, min_def]
  norm_num

/-! ## Claim C1 -/

/-- **C1** counterexample: the conversion pair used when switching the
color system stores HSV on integer sliders at 0.01 resolution, and this
quantization loses the input — the triple `(1,0,0)` comes back as
`(0,0,0)`, not `(1,0,0)`. -/
theorem c1_roundtrip_counterexample :
    sliderRoundtrip 1 0 0 = (0, 0, 0) ∧
    sliderRoundtrip 1 0 0 ≠ (1, 0, 0) := by
  refine ⟨sliderRoundtrip_1_0_0, ?_⟩
  rw [sliderRoundtrip_1_0_0]
  decide

/-! ## Claim C9 -/

/-- **C9** counterexample: switching RGB→HSV→RGB on `(255,128,0)` through
the 0.01-resolution slider representation returns `(255,122,0)` — the
green channel is off by 6, not within the claimed ±1 tolerance. -/
theorem c9_tolerance_counterexample :
    sliderRoundtrip 255 128 0 = (255, 122, 0) ∧
    ¬(((sliderRoundtrip 255 128 0).2.1 - 128 ≤ 1) ∧
      (128 - (sliderRoundtrip 255 128 0).2.1 ≤ 1)) := by
  refine ⟨sliderRoundtrip_255_128_0, ?_⟩
  rw [sliderRoundtrip_255_128_0]
  decide

/-- **C9** (amended).  The RGB→HSV→RGB mode switch on `(255,128,0)` yields
exactly `(255,122,0)`: red and blue channels are preserved, and each
channel is within ±6 of the original (the green error is exactly 6,
produced by the 0.01 hue quantization). -/
theorem c9_roundtrip_within_six :
    sliderRoundtrip 255 128 0 = (255, 122, 0) ∧
    ((sliderRoundtrip 255 128 0).1 - 255).natAbs ≤ 6 ∧
    ((sliderRoundtrip 255 128 0).2.1 - 128).natAbs = 6 ∧
    ((sliderRoundtrip 255 128 0).2.2 - 0).natAbs ≤ 6 := by
  refine ⟨sliderRoundtrip_255_128_0, ?_, ?_, ?_⟩ <;>
    rw [sliderRoundtrip_255_128_0] <;> decide


lemma sliderRoundtrip_0_0_0 : sliderRoundtrip 0 0 0 = (0, 0, 0) := by
  simp only [sliderRoundtrip, rgbSliders, Scalehsv, Scalergb, Slider.get_value,
    Slider.set_value, Slider.set_range, Slider.setMinimum, Slider.setMaximum,
    Slider.setValue, rgb_to_hsv, hsv_to_rgb, pymod1, pytrunc, qBound,
    max_def, min_def]
  norm_num

lemma sliderRoundtrip_255_0_0 : sliderRoundtrip 255 0 0 = (255, 0, 0) := by
  simp only [sliderRoundtrip, rgbSliders, Scalehsv, Scalergb, Slider.get_value,
    Slider.set_value, Slider.set_range, Slider.setMinimum, Slider.setMaximum,
    Slider.setValue, rgb_to_hsv, hsv_to_rgb, pymod1, pytrunc, qBound,
    max_def, min_def]
  norm_num

lemma sliderRoundtrip_255_255_255 :
    sliderRoundtrip 255 255 255 = (255, 255, 255) := by
  simp only [sliderRoundtrip, rgbSliders, Scalehsv, Scalergb, Slider.get_value,
    Slider.set_value, Slider.set_range, Slider.setMinimum, Slider.setMaximum,
    Slider.setValue, rgb_to_hsv, hsv_to_rgb, pymod1, pytrunc, qBound,
    max_def, min_def]
  norm_num

/-- **C1** (amended).  The RGB→HSV→RGB mode-switch round trip does not
reproduce the original integer triple in general: the HSV values are
stored on integer sliders at 0.01 resolution with `int()` truncation, and
already `(1,0,0)` returns as `(0,0,0)` (see the counterexample).  The
round trip reproduces only those triples whose stored HSV survives the
quantization and the final truncation unchanged, for example `(0,0,0)`,
`(255,0,0)` and `(255,255,255)`. -/
theorem c1_roundtrip_exact_points :
    sliderRoundtrip 0 0 0 = (0, 0, 0) ∧
    sliderRoundtrip 255 0 0 = (255, 0, 0) ∧
    sliderRoundtrip 255 255 255 = (255, 255, 255) ∧
    sliderRoundtrip 1 0 0 ≠ (1, 0, 0) := by
  refine ⟨sliderRoundtrip_0_0_0, sliderRoundtrip_255_0_0,
    sliderRoundtrip_255_255_255, ?_⟩
  rw [sliderRoundtrip_1_0_0]
  decide
